import Mathlib

/-!
# Verification of the bunny-chronology listening-history analytics scripts

Shallow embedding of the Python scripts `history_top_by_year.py`,
`history_top_songs_by_platform_grouped.py`, `history_top_songs_by_platform.py`,
`history_top_from_folder.py` and `count_bad_bunny_playlist_plays.py`.

Conventions of the embedding:
* Python strings are Lean `String` / `List Char`; `str.strip`, `str.lower`,
  `str.title` and the regular expressions of the source are hand-translated
  into structurally recursive functions on `List Char` (ASCII semantics).
* Python `dict`/`defaultdict(int)` buckets are total functions with default
  `0`, and `dict.get` maps are `String → Option String`.
* A history record (one JSON object) is the `Row` structure; a field that may
  be absent or `None` is an `Option`; the `ms_played` field may additionally
  hold a value that `int(...)` fails on, which the `MsField` type captures.
* Python's stable `list.sort` / `sorted` with a key function is modelled as
  `List.insertionSort` (also a stable sort) over the corresponding
  key ordering.
* File-system access and JSON parsing in `iter_history_records` are
  abstracted by their outcome: a file is a name together with the parse
  outcome of its content (`FileContent`).
-/

/-! ## Python string primitives -/

/-- Python whitespace for `str.strip` / `\s` (ASCII part). -/
def pyIsSpace (c : Char) : Bool :=
  c = ' ' || c = '\t' || c = '\n' || c = '\r' || c = '\x0b' || c = '\x0c'

/-- Python `str.strip()` on a character list. -/
def pyStrip (cs : List Char) : List Char :=
  ((cs.dropWhile pyIsSpace).reverse.dropWhile pyIsSpace).reverse

/-- Python `str.rstrip(t)` for a single strip character `t`. -/
def pyRstripChar (t : Char) (cs : List Char) : List Char :=
  (cs.reverse.dropWhile (· = t)).reverse

/-- Python `str.lower()` (ASCII). -/
def pyLower (cs : List Char) : List Char :=
  cs.map Char.toLower

/-- Python `str.strip()` on `String`. -/
def pyStripStr (s : String) : String :=
  ⟨pyStrip s.data⟩

/-- Python word character, for the regex `\b` boundary (ASCII `\w`). -/
def pyIsWord (c : Char) : Bool :=
  c.isAlphanum || c = '_'

/-- Python truthiness of an optional string: `None` and `""` are falsy. -/
def truthyStr (o : Option String) : Bool :=
  match o with
  | none => false
  | some s => !s.isEmpty

/-- Python `x or default` for an optional string (`None`/`""` replaced). -/
def pyOr (o : Option String) (d : String) : String :=
  match o with
  | none => d
  | some s => if s.isEmpty then d else s

/-! ## Data model: one history record -/

/-- The `ms_played` JSON field: absent/`None`, present but not convertible by
`int(...)`, or convertible to an integer. -/
inductive MsField : Type
  | missing : MsField
  | unparsable : MsField
  | val : Int → MsField
deriving DecidableEq

/-- One raw history record with the fields the scripts read. -/
structure Row : Type where
  spotify_track_uri : Option String
  master_metadata_track_name : Option String
  master_metadata_album_artist_name : Option String
  master_metadata_album_album_name : Option String
  platform : Option String
  ms_played : MsField
  ts : Option String
deriving DecidableEq

/-- `int(row.get("ms_played") or 0)` wrapped in `try/except` with fallback
`0`: missing and unparsable values are treated as `0`. -/
def parseMsPlayed (m : MsField) : Int :=
  match m with
  | MsField.missing => 0
  | MsField.unparsable => 0
  | MsField.val n => n

/-- The exact raw-platform exclusion set, identical in
`history_top_by_year.py`, `history_top_songs_by_platform_grouped.py` and
`count_bad_bunny_playlist_plays.py`. -/
def EXCLUDED_PLATFORMS_EXACT : List String :=
  [ "iOS 5.1.1 (iPod4,1)",
    "iOS 7.1.1 (iPad2,1)",
    "iOS 6.1.3 (iPod4,1)",
    "Android OS 4.1.1 API 16 (samsung, SGH-I747M)",
    "Android OS 4.2.2 API 17 (TCT, ALCATEL ONE TOUCH 5036A)",
    "Android OS 5.0.2 API 21 (motorola, XT1032)",
    "Android-tablet OS 5.0.2 API 21 (samsung, SM-P350)",
    "Windows 10 (10.0.10586; x64)" ]

/-- `platform in EXCLUDED_PLATFORMS_EXACT` where `platform` may be `None`
(`None` is not a member of the set). -/
def platformExcluded (p : Option String) : Bool :=
  match p with
  | none => false
  | some s => EXCLUDED_PLATFORMS_EXACT.contains s

/-- `history_top_by_year.py`: `CONSISTENCY_CAP_PER_YEAR = 10`. -/
def CONSISTENCY_CAP_PER_YEAR : Nat := 10

/-- `extract_year`: first four characters of the timestamp, `"Unknown"` if
the string is falsy or shorter than four characters. -/
def extract_year (ts : String) : String :=
  if ts.isEmpty || ts.length < 4 then "Unknown" else ⟨ts.data.take 4⟩

/-- `build_track_key_and_name` (identical in `history_top_by_year.py`,
`history_top_songs_by_platform.py` and
`history_top_songs_by_platform_grouped.py`): display is
`"track - artist"`, else track, else the URI, else `"(Unknown Track)"`;
the key is the URI when truthy, else `"name:" ++ display`. -/
def build_track_key_and_name (row : Row) : String × String :=
  let uri := row.spotify_track_uri
  let track := row.master_metadata_track_name
  let artist := row.master_metadata_album_artist_name
  let display : String :=
    if truthyStr track && truthyStr artist then
      track.getD "" ++ " - " ++ artist.getD ""
    else if truthyStr track then track.getD ""
    else if truthyStr uri then uri.getD ""
    else "(Unknown Track)"
  let key : String := if truthyStr uri then uri.getD "" else "name:" ++ display
  (key, display)

/-- `count_bad_bunny_playlist_plays.py` `_normalize_key`:
`f"{(title or '').strip().lower()}||{(artist or '').strip().lower()}"`. -/
def normalize_key (title artist : Option String) : String :=
  ⟨pyLower (pyStrip (pyOr title "").data)⟩ ++ "||" ++
    ⟨pyLower (pyStrip (pyOr artist "").data)⟩

/-! ## Bucket update helpers (`defaultdict(int)` semantics) -/

/-- Increment a one-level counting bucket at a key. -/
def bump (f : String → Nat) (k : String) : String → Nat :=
  fun x => if x = k then f k + 1 else f x

/-- Increment a two-level counting bucket at a key pair. -/
def bump2 (f : String → String → Nat) (k₁ k₂ : String) : String → String → Nat :=
  fun x y => if x = k₁ ∧ y = k₂ then f k₁ k₂ + 1 else f x y

/-- `d[k] = v` on a `String → Option String` dictionary. -/
def setKey (f : String → Option String) (k v : String) : String → Option String :=
  fun x => if x = k then some v else f x

/-! ## `history_top_by_year.py`: aggregation state and per-record step -/

/-- All mutable aggregation state of `history_top_by_year.py`'s main loop. -/
structure ByYearState : Type where
  song_counts_by_year : String → String → Nat
  artist_counts_by_year : String → String → Nat
  global_song_counts : String → Nat
  global_artist_counts : String → Nat
  artist_album_counts : String → String → Nat
  artist_song_counts : String → String → Nat
  track_display : String → Option String

/-- The empty state at the start of a run. -/
def initByYear : ByYearState :=
  { song_counts_by_year := fun _ _ => 0
    artist_counts_by_year := fun _ _ => 0
    global_song_counts := fun _ => 0
    global_artist_counts := fun _ => 0
    artist_album_counts := fun _ _ => 0
    artist_song_counts := fun _ _ => 0
    track_display := fun _ => none }

/-- One iteration of the record loop of `history_top_by_year.py` (lines
118-146): platform exclusion, the `ms_played > 30000` filter, then the
display-map write and the six bucket increments. -/
def processRowByYear (st : ByYearState) (row : Row) : ByYearState :=
  if platformExcluded row.platform then st
  else if parseMsPlayed row.ms_played ≤ 30000 then st
  else
    let ts := pyOr row.ts ""
    let year := extract_year ts
    let kn := build_track_key_and_name row
    let song_key := kn.1
    let song_name := kn.2
    let artist_name := pyOr row.master_metadata_album_artist_name "(Unknown Artist)"
    let album_name := pyOr row.master_metadata_album_album_name "(Unknown Album)"
    { song_counts_by_year := bump2 st.song_counts_by_year year song_key
      artist_counts_by_year := bump2 st.artist_counts_by_year year artist_name
      global_song_counts := bump st.global_song_counts song_key
      global_artist_counts := bump st.global_artist_counts artist_name
      artist_album_counts := bump2 st.artist_album_counts artist_name album_name
      artist_song_counts := bump2 st.artist_song_counts artist_name song_key
      track_display := setKey st.track_display song_key song_name }

/-- The whole streaming phase: fold the step over the record sequence. -/
def runByYear (rows : List Row) : ByYearState :=
  rows.foldl processRowByYear initByYear

/-! ## The platform classifier of `history_top_songs_by_platform_grouped.py`

Each regular expression of the source is hand-translated. The patterns use
only literals, `\s*`/`\s+`, `(\d+)`, `[^\]]*`-style complement classes,
alternation and the `\b` / `(?:[\.\s]|$)` boundaries; for each of them the
greedy match is the only possible match (backtracking into `\s*`/`\d+`
always fails on the very next literal), so the translations below scan
deterministically. `IGNORECASE` anchored matches are run against the
lowercased subject with lowercase literals (digits, whitespace and
boundaries are unaffected by lowercasing). -/

/-- Remainder of the list after the first occurrence of `sep`
(Python `s.split(sep, 1)[1]`); empty when `sep` does not occur. -/
def afterFirst (sep : Char) (cs : List Char) : List Char :=
  (cs.dropWhile (· ≠ sep)).drop 1

/-- Python substring test `needle in hay`. -/
def hasSub (needle : List Char) : List Char → Bool
  | [] => needle.isEmpty
  | c :: cs => needle.isPrefixOf (c :: cs) || hasSub needle (cs)

/-- Python `str.split()` (split on whitespace runs, no empty tokens). -/
def pyWords (cs : List Char) : List (List Char) :=
  (cs.splitOnP pyIsSpace).filter (fun w => !w.isEmpty)

/-- Python `str.title()` (ASCII): uppercase a letter following a
non-letter, lowercase a letter following a letter. -/
def pyTitleAux : Bool → List Char → List Char
  | _, [] => []
  | prevAlpha, c :: cs =>
    if c.isAlpha then
      (if prevAlpha then c.toLower else c.toUpper) :: pyTitleAux true cs
    else
      c :: pyTitleAux false cs

/-- Python `str.title()` starting in word-start position. -/
def pyTitle (cs : List Char) : List Char :=
  pyTitleAux false cs

/-- `re.sub(r"\s*\[[^\]]*\]\s*", " ", s)`: replace each bracketed segment
(with surrounding whitespace) by a single space, scanning left to right and
continuing after each replacement. The fuel argument (instantiated with the
list length, which bounds the number of steps) makes the recursion
structural. -/
def subSquareFuel : Nat → List Char → List Char
  | _, [] => []
  | 0, cs => cs
  | Nat.succ fuel, c :: cs =>
    match (c :: cs).dropWhile pyIsSpace with
    | '[' :: tail =>
      match tail.dropWhile (· ≠ ']') with
      | ']' :: tail2 => ' ' :: subSquareFuel fuel (tail2.dropWhile pyIsSpace)
      | _ => c :: subSquareFuel fuel cs
    | _ => c :: subSquareFuel fuel cs

/-- `re.sub(r"\s*\[[^\]]*\]\s*", " ", s)`. -/
def subSquare (cs : List Char) : List Char :=
  subSquareFuel cs.length cs

/-- `re.sub(r"\s*\([^\)]*\)\s*", "", s)`: delete each parenthesised segment
together with surrounding whitespace. -/
def subParensFuel : Nat → List Char → List Char
  | _, [] => []
  | 0, cs => cs
  | Nat.succ fuel, c :: cs =>
    match (c :: cs).dropWhile pyIsSpace with
    | '(' :: tail =>
      match tail.dropWhile (· ≠ ')') with
      | ')' :: tail2 => subParensFuel fuel (tail2.dropWhile pyIsSpace)
      | _ => c :: subParensFuel fuel cs
    | _ => c :: subParensFuel fuel cs

/-- `re.sub(r"\s*\([^\)]*\)\s*", "", s)`. -/
def subParens (cs : List Char) : List Char :=
  subParensFuel cs.length cs

/-- Match `\s+(\d+)` at the start: at least one whitespace, then the
maximal digit run; returns the digits and the rest after them. -/
def wsDigits (r : List Char) : Option (List Char × List Char) :=
  let r2 := r.dropWhile pyIsSpace
  if r2.length = r.length then none
  else
    let ds := r2.takeWhile Char.isDigit
    if ds.isEmpty then none else some (ds, r2.drop ds.length)

/-- Match `\s+(\d+)` at the start, keeping only the digits. -/
def wsDigitsOnly (r : List Char) : Option (List Char) :=
  match wsDigits r with
  | some (ds, _) => some ds
  | none => none

/-- Match `\s+(\d+)(?:[\.\s]|$)` at the start: digits must be followed by a
dot, whitespace, or the end of the subject. -/
def wsDigitsDotWsEnd (r : List Char) : Option (List Char) :=
  match wsDigits r with
  | some (ds, rest) =>
    match rest with
    | [] => some ds
    | c :: _ => if c = '.' || pyIsSpace c then some ds else none
  | none => none

/-- Anchored `lit\s+(\d+)` at the start of `cs`. -/
def matchLitWsNum (lit : List Char) (cs : List Char) : Option (List Char) :=
  if lit.isPrefixOf cs then wsDigitsOnly (cs.drop lit.length) else none

/-- `re.search(lit + r"\s+(\d+)", s)`: try the anchored match at every
position, left to right. -/
def searchLitWsNum (lit : List Char) : List Char → Option (List Char)
  | [] => none
  | c :: cs =>
    match matchLitWsNum lit (c :: cs) with
    | some ds => some ds
    | none => searchLitWsNum lit cs

/-- Anchored `(?:mac\s*os\s*x|macos)\s+(\d+)` at the start of `cs`
(subject already lowercased); the first alternative is tried first, as the
regex engine does. -/
def matchMacAltWsNum (cs : List Char) : Option (List Char) :=
  let b1 : Option (List Char) :=
    if ("mac".data).isPrefixOf cs then
      let r := (cs.drop 3).dropWhile pyIsSpace
      if ("os".data).isPrefixOf r then
        match (r.drop 2).dropWhile pyIsSpace with
        | 'x' :: r3 => wsDigitsOnly r3
        | _ => none
      else none
    else none
  match b1 with
  | some ds => some ds
  | none =>
    if ("macos".data).isPrefixOf cs then wsDigitsOnly (cs.drop 5) else none

/-- `re.search(r"(?:mac\s*os\s*x|macos)\s+(\d+)", s)`. -/
def searchMacAltWsNum : List Char → Option (List Char)
  | [] => none
  | c :: cs =>
    match matchMacAltWsNum (c :: cs) with
    | some ds => some ds
    | none => searchMacAltWsNum cs

/-- `re.match(r"^Windows\s+(\d+)\b", p, re.IGNORECASE)`, run on the
lowercased subject: literal, whitespace, digits, then a word boundary
(next character is not a word character, or end). -/
def matchWindowsNum (cs : List Char) : Option (List Char) :=
  if ("windows".data).isPrefixOf cs then
    match wsDigits (cs.drop 7) with
    | some (ds, rest) =>
      match rest with
      | [] => some ds
      | c :: _ => if pyIsWord c then none else some ds
    | none => none
  else none

/-- `re.match("^" + lit + r"\s+(\d+)(?:[\.\s]|$)", p, re.IGNORECASE)` on
the lowercased subject; used for the `Android N` and `iOS N` rules. -/
def matchLitNumBoundary (lit : List Char) (cs : List Char) : Option (List Char) :=
  if lit.isPrefixOf cs then wsDigitsDotWsEnd (cs.drop lit.length) else none

/-- `\s+os\s+(\d+)` at the start of `r` (tail of the Android-OS rule). -/
def matchOsTail (r : List Char) : Option (List Char) :=
  let r1 := r.dropWhile pyIsSpace
  if r1.length = r.length then none
  else if ("os".data).isPrefixOf r1 then wsDigitsOnly (r1.drop 2)
  else none

/-- `re.match(r"^Android(?:-tablet)?\s+OS\s+(\d+)", p, re.IGNORECASE)` on
the lowercased subject; the optional `-tablet` is tried greedily first. -/
def matchAndroidOsNum (cs : List Char) : Option (List Char) :=
  if ("android".data).isPrefixOf cs then
    let tail := cs.drop 7
    let withTablet : Option (List Char) :=
      if ("-tablet".data).isPrefixOf tail then matchOsTail (tail.drop 7) else none
    match withTablet with
    | some ds => some ds
    | none => matchOsTail tail
  else none

/-- `re.match(r"^(?:Mac\s*OS\s*X|macOS|OS\s*X)\s+(\d+)(?:[\.\s]|$)", p,
re.IGNORECASE)` on the lowercased subject; alternatives tried in order. -/
def matchMacOsXNum (cs : List Char) : Option (List Char) :=
  let b1 : Option (List Char) :=
    if ("mac".data).isPrefixOf cs then
      let r := (cs.drop 3).dropWhile pyIsSpace
      if ("os".data).isPrefixOf r then
        match (r.drop 2).dropWhile pyIsSpace with
        | 'x' :: r3 => wsDigitsDotWsEnd r3
        | _ => none
      else none
    else none
  match b1 with
  | some ds => some ds
  | none =>
    let b2 : Option (List Char) :=
      if ("macos".data).isPrefixOf cs then wsDigitsDotWsEnd (cs.drop 5) else none
    match b2 with
    | some ds => some ds
    | none =>
      if ("os".data).isPrefixOf cs then
        match (cs.drop 2).dropWhile pyIsSpace with
        | 'x' :: r3 => wsDigitsDotWsEnd r3
        | _ => none
      else none

/-- The `web_player` branch of `normalize_platform_to_group` (lines
81-107): OS token before the first `;`, matched against
Windows/macOS/Linux/iOS/Android sub-patterns, with a title-cased
fallback. -/
def classifyWeb (p : List Char) : String :=
  let rest := if p.contains ' ' then afterFirst ' ' p else []
  let os_token := pyStrip (rest.takeWhile (· ≠ ';'))
  let os_token_l := pyLower os_token
  match searchLitWsNum "windows".data os_token_l with
  | some ds => "Web Player Windows " ++ ⟨ds⟩
  | none =>
  match searchMacAltWsNum os_token_l with
  | some ds => "Web Player macOS " ++ ⟨ds⟩
  | none =>
  if hasSub "linux".data os_token_l then "Web Player Linux"
  else
  match searchLitWsNum "ios".data os_token_l with
  | some ds => "Web Player iOS " ++ ⟨ds⟩
  | none =>
  match searchLitWsNum "android".data os_token_l with
  | some ds => "Web Player Android " ++ ⟨ds⟩
  | none =>
    let cleaned := pyStrip (subParens os_token)
    let cleaned2 := if cleaned.isEmpty then "Unknown".data else cleaned
    "Web Player " ++ ⟨pyTitle cleaned2⟩

/-- The first `Partner` branch of `normalize_platform_to_group` (lines
110-125): Tesla/Roku/Cast vendor substrings, then a cleaned fallback. -/
def classifyPartner (p pl : List Char) : String :=
  if hasSub "tesla".data pl then "Tesla"
  else if hasSub "roku".data pl then "Roku TV"
  else if hasSub "cast".data pl then
    (if hasSub "group".data pl then "Google Cast Group" else "Google Cast")
  else
    let cleaned := pyStrip (subParens p)
    if cleaned.isEmpty then "Partner" else ⟨cleaned⟩

/-- The second `Partner` branch of `normalize_platform_to_group` (lines
161-182): vendor token before the first `;`, model field after it. -/
def classifyDeadPartner (p : List Char) : String :=
  let tail := pyStrip (p.drop 7)
  let hasSem := tail.contains ';'
  let pre := if hasSem then tail.takeWhile (· ≠ ';') else tail
  let rest := if hasSem then afterFirst ';' tail else []
  let vendor_token := ((pyWords (pyStrip pre)).getLast?).getD []
  let model_field := if rest.isEmpty then [] else pyStrip (rest.takeWhile (· ≠ ';'))
  let vendor_clean := pyStrip (vendor_token.map (fun c => if c = '_' then ' ' else c))
  let model_clean := pyStrip (model_field.map (fun c => if c = '_' then ' ' else c))
  if hasSub "google cast group".data (pyLower model_clean) then "Google Cast Group"
  else if hasSub "google cast".data (pyLower vendor_clean) ||
          hasSub "google cast".data (pyLower model_clean) then "Google Cast"
  else
    let group_vendor := if vendor_clean.isEmpty then "Partner".data else pyTitle vendor_clean
    if model_clean.isEmpty then ⟨group_vendor⟩ else ⟨group_vendor⟩ ++ " " ++ ⟨model_clean⟩

/-- The cleaning prelude of `normalize_platform_to_group` (lines 75-77):
`p = platform.strip().rstrip(")")`, bracketed metadata replaced by a
space, then stripped — the `p` of the source. -/
def cleanedPlatform (platform : String) : List Char :=
  pyStrip (subSquare (pyRstripChar ')' (pyStrip platform.data)))

/-- The ordered rule chain of `normalize_platform_to_group` (lines
81-186) on the cleaned string `p` and its lowercase form `pl`, including
the unreachable second `Partner` branch. -/
def classifyChain (p pl : List Char) : String :=
  if ("web_player".data).isPrefixOf pl || ("web player".data).isPrefixOf pl then
    classifyWeb p
  else if ("partner".data).isPrefixOf pl then classifyPartner p pl
  else if ("google cast".data).isPrefixOf pl then "Google Cast"
  else
  match matchWindowsNum pl with
  | some ds => "Windows " ++ ⟨ds⟩
  | none =>
  match matchLitNumBoundary "android".data pl with
  | some ds => "Android " ++ ⟨ds⟩
  | none =>
  match matchAndroidOsNum pl with
  | some ds => "Android " ++ ⟨ds⟩
  | none =>
  match matchLitNumBoundary "ios".data pl with
  | some ds => "iOS " ++ ⟨ds⟩
  | none =>
  match matchMacOsXNum pl with
  | some ds => "macOS " ++ ⟨ds⟩
  | none =>
  if ("linux".data).isPrefixOf pl then "Linux"
  else if ("partner".data).isPrefixOf pl then classifyDeadPartner p
  else
    if (pyStrip (subParens p)).isEmpty then "Unknown" else ⟨pyStrip (subParens p)⟩

/-- The same rule chain with the second `Partner` branch (source lines
160-182) deleted; otherwise identical, for the dead-code claim. -/
def classifyChainNoSecondPartner (p pl : List Char) : String :=
  if ("web_player".data).isPrefixOf pl || ("web player".data).isPrefixOf pl then
    classifyWeb p
  else if ("partner".data).isPrefixOf pl then classifyPartner p pl
  else if ("google cast".data).isPrefixOf pl then "Google Cast"
  else
  match matchWindowsNum pl with
  | some ds => "Windows " ++ ⟨ds⟩
  | none =>
  match matchLitNumBoundary "android".data pl with
  | some ds => "Android " ++ ⟨ds⟩
  | none =>
  match matchAndroidOsNum pl with
  | some ds => "Android " ++ ⟨ds⟩
  | none =>
  match matchLitNumBoundary "ios".data pl with
  | some ds => "iOS " ++ ⟨ds⟩
  | none =>
  match matchMacOsXNum pl with
  | some ds => "macOS " ++ ⟨ds⟩
  | none =>
  if ("linux".data).isPrefixOf pl then "Linux"
  else
    if (pyStrip (subParens p)).isEmpty then "Unknown" else ⟨pyStrip (subParens p)⟩

/-- `normalize_platform_to_group` (lines 57-186): the falsy check, the
cleaning prelude, then the ordered rule chain. -/
def normalize_platform_to_group (platform : String) : String :=
  if platform.isEmpty then "Unknown"
  else classifyChain (cleanedPlatform platform) (pyLower (cleanedPlatform platform))

/-- `normalize_platform_to_group` with the second `Partner` branch
deleted; otherwise identical, for the dead-code claim. -/
def normalize_platform_to_group_noSecondPartner (platform : String) : String :=
  if platform.isEmpty then "Unknown"
  else
    classifyChainNoSecondPartner (cleanedPlatform platform)
      (pyLower (cleanedPlatform platform))

/-! ## `history_top_songs_by_platform_grouped.py`: state and step -/

/-- `EXCLUDED_GROUPS` of the grouped script is empty in the source. -/
def EXCLUDED_GROUPS : List String := []

/-- Mutable state of the grouped script's main loop; `seen_groups` is the
set of elements of `group_order` (the two are kept in sync by the loop). -/
structure GroupedState : Type where
  group_to_counts : String → String → Nat
  track_display : String → Option String
  group_order : List String

/-- The empty state at the start of a run of the grouped script. -/
def initGrouped : GroupedState :=
  { group_to_counts := fun _ _ => 0
    track_display := fun _ => none
    group_order := [] }

/-- One iteration of the record loop of
`history_top_songs_by_platform_grouped.py` (lines 221-240): platform
defaulting, exact exclusion, classification, group exclusion, first-seen
group order, display-map write and the bucket increment. Note: this loop
applies no `ms_played` filter. -/
def processRowGrouped (st : GroupedState) (row : Row) : GroupedState :=
  let platform := pyOr row.platform "Unknown"
  if EXCLUDED_PLATFORMS_EXACT.contains platform then st
  else
    let group := normalize_platform_to_group platform
    if (EXCLUDED_GROUPS.map String.toLower).contains group.toLower then st
    else
      let group_order :=
        if st.group_order.contains group then st.group_order
        else st.group_order ++ [group]
      let kn := build_track_key_and_name row
      { group_to_counts := bump2 st.group_to_counts group kn.1
        track_display := setKey st.track_display kn.1 kn.2
        group_order := group_order }

/-! ## `count_bad_bunny_playlist_plays.py`: resolver and step -/

/-- `OLD_CRITERIA_ARTIST_NAMES = {"Bad Bunny"}`. -/
def OLD_CRITERIA_ARTIST_NAMES : List String := ["Bad Bunny"]

/-- The catalog index built from the playlist before the streaming phase:
`uri_set`, `uri_to_display` and `key_to_display` of `main` (immutable
during the loop). -/
structure CatalogEnv : Type where
  uri_set : List String
  uri_to_display : String → Option String
  key_to_display : String → Option String

/-- The resolution step of `count_bad_bunny_playlist_plays.py` `main`
(lines 177-195): identifier lookup first (`uri and uri in uri_set`), then
the normalized-text fallback, whose hit registers the display's key in
`display_to_key` when absent. Returns the matched display key (or `none`)
and the possibly-updated `display_to_key` map. -/
def resolve_display_key (env : CatalogEnv) (display_to_key : String → Option String)
    (row : Row) : Option String × (String → Option String) :=
  let uri := row.spotify_track_uri
  if truthyStr uri && env.uri_set.contains (uri.getD "") then
    (some ((env.uri_to_display (uri.getD "")).getD (uri.getD "")), display_to_key)
  else
    let nk := normalize_key row.master_metadata_track_name
      row.master_metadata_album_artist_name
    match env.key_to_display nk with
    | some dk =>
      if nk.isEmpty then (none, display_to_key)
      else
        let d2k :=
          if !dk.isEmpty && (display_to_key dk).isNone then setKey display_to_key dk nk
          else display_to_key
        (some dk, d2k)
    | none => (none, display_to_key)

/-- Mutable aggregation state of `count_bad_bunny_playlist_plays.py`. -/
structure BBState : Type where
  song_counts : String → Nat
  song_counts_old : String → Nat
  total_plays : Nat
  song_counts_by_year : String → String → Nat
  display_to_key : String → Option String

/-- Start state for the playlist-counting loop, taking the
`display_to_key` table handed over from the catalog fetch. -/
def initBB (display_to_key : String → Option String) : BBState :=
  { song_counts := fun _ => 0
    song_counts_old := fun _ => 0
    total_plays := 0
    song_counts_by_year := fun _ _ => 0
    display_to_key := display_to_key }

/-- One iteration of the record loop of
`count_bad_bunny_playlist_plays.py` `main` (lines 165-209): exact platform
exclusion, the `ms_played > 30000` filter, resolution against the catalog,
then the new-criteria, per-year and old-criteria tallies. -/
def processRowBB (env : CatalogEnv) (st : BBState) (row : Row) : BBState :=
  if platformExcluded row.platform then st
  else if parseMsPlayed row.ms_played ≤ 30000 then st
  else
    match resolve_display_key env st.display_to_key row with
    | (none, _) => st
    | (some display_key, d2k) =>
      let year := extract_year (pyOr row.ts "")
      let lead_artist := pyStripStr (pyOr row.master_metadata_album_artist_name "")
      let oldMatch :=
        !lead_artist.isEmpty &&
          OLD_CRITERIA_ARTIST_NAMES.any (fun n => lead_artist.toLower = n.toLower)
      { song_counts := bump st.song_counts display_key
        song_counts_old :=
          if oldMatch && !display_key.isEmpty then bump st.song_counts_old display_key
          else st.song_counts_old
        total_plays := st.total_plays + 1
        song_counts_by_year := bump2 st.song_counts_by_year year display_key
        display_to_key := d2k }

/-! ## Statistics: `compute_gini` and the consistency metric -/

/-- `cum = Σ i · value_i` for 1-indexed `i` (the `enumerate(arr, start=1)`
loop of `compute_gini`), with starting index as a parameter. -/
def weightedCum : Nat → List Int → Int
  | _, [] => 0
  | i, x :: xs => (i : Int) * x + weightedCum (i + 1) xs

/-- `compute_gini` of `history_top_by_year.py` (lines 175-188): filter to
strictly positive values, early return `0.0` on the empty result, sort
ascending, form `cum` and `total`, return `0.0` on zero total, else the
Gini formula clamped to `[0, 1]`. Real-number arithmetic is modelled
exactly in `ℚ` (all quantities involved are exact). -/
def compute_gini (counts : List Int) : ℚ :=
  let arr := counts.filter (fun c => 0 < c)
  let n := arr.length
  if n = 0 then 0
  else
    let sorted := List.insertionSort (· ≤ ·) arr
    let cum := weightedCum 1 sorted
    let total := sorted.sum
    if total = 0 then 0
    else
      let g : ℚ := (2 * (cum : ℚ)) / ((n : ℚ) * (total : ℚ)) - ((n : ℚ) + 1) / (n : ℚ)
      max 0 (min 1 g)

/-- The Gini function exactly as the specification words it: filter to
strictly positive values, sort ascending, then `0.0` if `n == 0` or
`total == 0`, else the clamped formula. (Spec-side definition, to be
compared with `compute_gini` from the source.) -/
def gini_spec (counts : List Int) : ℚ :=
  let arr := List.insertionSort (· ≤ ·) (counts.filter (fun c => 0 < c))
  let n := arr.length
  let cum := weightedCum 1 arr
  let total := arr.sum
  if n = 0 ∨ total = 0 then 0
  else max 0 (min 1 ((2 * (cum : ℚ)) / ((n : ℚ) * (total : ℚ)) - ((n : ℚ) + 1) / (n : ℚ)))

/-- Per-song consistency data of `history_top_by_year.py` (lines 230-234)
from the song's year→count map (keys distinct): the capped score, the
number of active years (`len(year_map)`) and the total plays. -/
def consistencyEntry (year_map : List (String × Nat)) : Nat × Nat × Nat :=
  ((year_map.map (fun yc => min yc.2 CONSISTENCY_CAP_PER_YEAR)).sum,
    year_map.length,
    (year_map.map (fun yc => yc.2)).sum)

/-! ## Ranking comparators (Python `sort(key=...)` as stable sorts) -/

/-- `track_display.get(key, key)`: display lookup with the key itself as
fallback. -/
def dispOf (td : String → Option String) (k : String) : String :=
  (td k).getD k

/-- The Python sort key `(-count, displayName)` as a lexicographic value;
ascending order on it is descending count with ascending-name ties. Used
by the per-year/global song and artist rankings, the grouped/platform
top-10 lists and the playlist-counting top lists. -/
def countNameKey (td : String → Option String) (x : String × Nat) : Lex (Int × String) :=
  toLex (-(x.2 : Int), dispOf td x.1)

/-- A counting bucket's items sorted by the `(-count, name)` key (stable,
like Python's `sort`). -/
def sortCountName (td : String → Option String) (items : List (String × Nat)) :
    List (String × Nat) :=
  List.insertionSort (fun a b => countNameKey td a ≤ countNameKey td b) items

/-- The ordering the ranking contract describes: descending count,
ascending display name on count ties. -/
def countNameOrder (td : String → Option String) (a b : String × Nat) : Prop :=
  b.2 < a.2 ∨ (a.2 = b.2 ∧ dispOf td a.1 ≤ dispOf td b.1)

/-- `history_top_from_folder.py` (line 135): `sorted(song_to_ms.items(),
key=lambda x: -x[1])` — descending total `ms_played`, no name tie-break. -/
def sortSongToMsDesc (items : List (String × Nat)) : List (String × Nat) :=
  List.insertionSort (fun a b => -(a.2 : Int) ≤ -(b.2 : Int)) items

/-- The Python consistency sort key `(-score, -years_active, -total,
display)` of `history_top_by_year.py` line 236, as a lexicographic value
on an entry `(song_key, score, years_active, total)`. -/
def consistencyKey (td : String → Option String) (x : String × Nat × Nat × Nat) :
    Lex (Int × Lex (Int × Lex (Int × String))) :=
  toLex (-(x.2.1 : Int), toLex (-(x.2.2.1 : Int), toLex (-(x.2.2.2 : Int), dispOf td x.1)))

/-- The consistency entries sorted by that key (stable, like Python). -/
def sortConsistency (td : String → Option String)
    (l : List (String × Nat × Nat × Nat)) : List (String × Nat × Nat × Nat) :=
  List.insertionSort (fun a b => consistencyKey td a ≤ consistencyKey td b) l

/-- The ordering the consistency ranking describes: descending score,
then descending years active, then descending total plays, then ascending
display name. -/
def consistencyOrder (td : String → Option String)
    (a b : String × Nat × Nat × Nat) : Prop :=
  b.2.1 < a.2.1 ∨ (a.2.1 = b.2.1 ∧
    (b.2.2.1 < a.2.2.1 ∨ (a.2.2.1 = b.2.2.1 ∧
      (b.2.2.2 < a.2.2.2 ∨ (a.2.2.2 = b.2.2.2 ∧
        dispOf td a.1 ≤ dispOf td b.1)))))

/-! ## Record Source: `iter_history_records`

JSON parsing and the file system are abstracted by their outcomes: a file
is a name together with the outcome of parsing its content, and each line
of a file whose whole-file parse failed is blank, unparseable, or one
record. -/

/-- Outcome of `json.loads` on one stripped line. -/
inductive LineOutcome (α : Type) : Type
  | blank : LineOutcome α
  | bad : LineOutcome α
  | ok : α → LineOutcome α
deriving DecidableEq

/-- Outcome of `json.load` on a whole file: a JSON array, some other JSON
value (yields nothing, no fallback), or a parse failure with the per-line
outcomes of the line-delimited fallback. -/
inductive FileContent (α : Type) : Type
  | arrayOk : List α → FileContent α
  | nonArray : FileContent α
  | noParse : List (LineOutcome α) → FileContent α

/-- The line-delimited fallback (lines 46-55): skip blank lines, yield
parsed rows, silently skip lines that fail to parse. -/
def lineRecords {α : Type} (ls : List (LineOutcome α)) : List α :=
  ls.filterMap (fun l =>
    match l with
    | LineOutcome.ok a => some a
    | _ => none)

/-- Records yielded from one file (lines 36-55). -/
def fileRecords {α : Type} : FileContent α → List α
  | FileContent.arrayOk rows => rows
  | FileContent.nonArray => []
  | FileContent.noParse ls => lineRecords ls

/-- `iter_history_records` (lines 27-55): process the files in sorted
filename order, concatenating each file's records. -/
def iter_history_records {α : Type} (files : List (String × FileContent α)) : List α :=
  (List.insertionSort (fun a b => a.1 ≤ b.1) files).flatMap (fun f => fileRecords f.2)

/-! ## Auxiliary lemmas -/

/-- A nonempty string has `isEmpty = false`. -/
theorem isEmpty_false_of_ne (s : String) (h : s ≠ "") : s.isEmpty = false := by
  rw [Bool.eq_false_iff]
  intro hh
  exact h ((String.isEmpty_iff s).mp hh)

/-- Left-cancellation for string append. -/
theorem string_append_cancel {s a b : String} (h : s ++ a = s ++ b) : a = b := by
  cases s; cases a; cases b
  simp only [HAppend.hAppend, Append.append, String.append] at h
  injection h with h
  exact congrArg String.mk (List.append_cancel_left h)

/-- The `(-count, name)` key order implies the descending-count /
ascending-name order. -/
theorem countNameKey_le_imp (td : String → Option String) (a b : String × Nat)
    (h : countNameKey td a ≤ countNameKey td b) : countNameOrder td a b := by
  rcases (Prod.Lex.le_iff _ _).mp h with h1 | ⟨h1, h2⟩
  · exact Or.inl (by exact_mod_cast neg_lt_neg_iff.mp h1)
  · exact Or.inr ⟨by exact_mod_cast neg_inj.mp h1, h2⟩

/-- The consistency key order implies the four-level descending order. -/
theorem consistencyKey_le_imp (td : String → Option String)
    (a b : String × Nat × Nat × Nat)
    (h : consistencyKey td a ≤ consistencyKey td b) : consistencyOrder td a b := by
  rcases (Prod.Lex.le_iff _ _).mp h with h1 | ⟨h1, h2⟩
  · exact Or.inl (by exact_mod_cast neg_lt_neg_iff.mp h1)
  · refine Or.inr ⟨by exact_mod_cast neg_inj.mp h1, ?_⟩
    rcases (Prod.Lex.le_iff _ _).mp h2 with h3 | ⟨h3, h4⟩
    · exact Or.inl (by exact_mod_cast neg_lt_neg_iff.mp h3)
    · refine Or.inr ⟨by exact_mod_cast neg_inj.mp h3, ?_⟩
      rcases (Prod.Lex.le_iff _ _).mp h4 with h5 | ⟨h5, h6⟩
      · exact Or.inl (by exact_mod_cast neg_lt_neg_iff.mp h5)
      · exact Or.inr ⟨by exact_mod_cast neg_inj.mp h5, h6⟩

/-- The two rule chains agree on every input: any lowered string starting
with `partner` already returns from the first `Partner` branch, so the
second one is unreachable. -/
theorem classifyChain_eq_noSecondPartner (p pl : List Char) :
    classifyChain p pl = classifyChainNoSecondPartner p pl := by
  unfold classifyChain classifyChainNoSecondPartner
  repeat first | rfl | contradiction | split

/-! ## Concrete inputs used by counterexamples and witnesses -/

/-- A short play (1 second) on a non-excluded platform. -/
def c1ShortRow : Row :=
  { spotify_track_uri := some "u"
    master_metadata_track_name := some "A"
    master_metadata_album_artist_name := some "B"
    master_metadata_album_album_name := none
    platform := some "Linux"
    ms_played := MsField.val 1000
    ts := some "2020-01-01T00:00:00Z" }

/-- A trivial empty catalog. -/
def trivialEnv : CatalogEnv :=
  { uri_set := [], uri_to_display := fun _ => none, key_to_display := fun _ => none }

/-- First qualifying record for URI `spotify:track:x`, titled `A`. -/
def c2RowA : Row :=
  { spotify_track_uri := some "spotify:track:x"
    master_metadata_track_name := some "A"
    master_metadata_album_artist_name := some "B"
    master_metadata_album_album_name := none
    platform := none
    ms_played := MsField.val 31000
    ts := some "2020-01-01T00:00:00Z" }

/-- Later qualifying record for the same URI, titled `C`. -/
def c2RowB : Row :=
  { spotify_track_uri := some "spotify:track:x"
    master_metadata_track_name := some "C"
    master_metadata_album_artist_name := some "B"
    master_metadata_album_album_name := none
    platform := none
    ms_played := MsField.val 31000
    ts := some "2021-01-01T00:00:00Z" }

/-- A record without identifier, title `Song`, artist `X`. -/
def c3RowA : Row :=
  { spotify_track_uri := none
    master_metadata_track_name := some "Song"
    master_metadata_album_artist_name := some "X"
    master_metadata_album_album_name := none
    platform := none
    ms_played := MsField.val 31000
    ts := none }

/-- The same record with the title in different case. -/
def c3RowB : Row :=
  { spotify_track_uri := none
    master_metadata_track_name := some "song"
    master_metadata_album_artist_name := some "X"
    master_metadata_album_album_name := none
    platform := none
    ms_played := MsField.val 31000
    ts := none }

/-- A catalog where identifier `u1` maps to entry `Song A - X` while every
normalized text maps to a different entry `Song B - Y`. -/
def c8Env : CatalogEnv :=
  { uri_set := ["u1"]
    uri_to_display := fun k => if k = "u1" then some "Song A - X" else none
    key_to_display := fun _ => some "Song B - Y" }

/-- A record carrying identifier `u1` whose title/artist text would also
match the text fallback. -/
def c8Row : Row :=
  { spotify_track_uri := some "u1"
    master_metadata_track_name := some "Song A"
    master_metadata_album_artist_name := some "X"
    master_metadata_album_album_name := none
    platform := none
    ms_played := MsField.val 31000
    ts := none }

/-! ## The claims -/

/-- C1 counterexample: a record with `ms_played = 1000 ≤ 30000` on a
non-excluded platform increments a bucket of
`history_top_songs_by_platform_grouped.py` — that loop has no duration
filter — refuting "for every record with ms_played <= 30000, no bucket in
any script's aggregation is incremented". -/
theorem c1_counterexample :
    parseMsPlayed c1ShortRow.ms_played ≤ 30000 ∧
    initGrouped.group_to_counts "Linux" "u" = 0 ∧
    (processRowGrouped initGrouped c1ShortRow).group_to_counts "Linux" "u" = 1 := by
  refine ⟨by decide, rfl, by decide⟩

/-- C1 amended: in `history_top_by_year.py` and
`count_bad_bunny_playlist_plays.py` a record with an excluded platform or
`ms_played ≤ 30000` leaves the whole aggregation state unchanged (the
grouped platform script applies only the platform exclusion). -/
theorem c1_qualification_filter (st : ByYearState) (env : CatalogEnv) (stb : BBState)
    (row : Row)
    (h : platformExcluded row.platform = true ∨ parseMsPlayed row.ms_played ≤ 30000) :
    processRowByYear st row = st ∧ processRowBB env stb row = stb := by
  by_cases hp : platformExcluded row.platform = true
  · constructor
    · simp [processRowByYear, hp]
    · simp [processRowBB, hp]
  · rcases h with h | h
    · exact absurd h hp
    · constructor
      · simp [processRowByYear, hp, h]
      · simp [processRowBB, hp, h]

/-- C1 witness: the filter theorem applied to the concrete short play. -/
theorem c1_witness :
    processRowByYear initByYear c1ShortRow = initByYear ∧
    processRowBB trivialEnv (initBB fun _ => none) c1ShortRow = initBB fun _ => none :=
  c1_qualification_filter _ _ _ _ (Or.inr (by decide))

/-- C2 counterexample: after two qualifying records with the same key, the
stored display name is the second record's (`"C - B"`), not the first
record's (`"A - B"`): `track_display[song_key] = song_name` overwrites
unconditionally. -/
theorem c2_counterexample :
    (processRowByYear (processRowByYear initByYear c2RowA) c2RowB).track_display
        "spotify:track:x" = some "C - B" ∧
    ("C - B" : String) ≠ "A - B" := by
  refine ⟨by decide, by decide⟩

/-- C2 amended: the stored display name for a key is the one of the last
qualifying record with that key — each qualifying record overwrites it —
in both `history_top_by_year.py` and the grouped platform script. -/
theorem c2_display_last_writer (st : ByYearState) (stg : GroupedState) (row : Row) :
    (platformExcluded row.platform = false → 30000 < parseMsPlayed row.ms_played →
      (processRowByYear st row).track_display (build_track_key_and_name row).1 =
        some (build_track_key_and_name row).2) ∧
    (EXCLUDED_PLATFORMS_EXACT.contains (pyOr row.platform "Unknown") = false →
      (processRowGrouped stg row).track_display (build_track_key_and_name row).1 =
        some (build_track_key_and_name row).2) := by
  constructor
  · intro h₁ h₂
    rw [processRowByYear, if_neg (by simp [h₁]), if_neg (not_le.mpr h₂)]
    simp [setKey]
  · intro h₁
    rw [processRowGrouped]
    simp only [h₁, Bool.false_eq_true, if_false, EXCLUDED_GROUPS, List.map_nil,
      List.contains_nil]
    simp [setKey]

/-- C2 witness: the overwrite theorem at the concrete second record. -/
theorem c2_witness :
    (processRowByYear initByYear c2RowB).track_display "spotify:track:x" = some "C - B" ∧
    (processRowGrouped initGrouped c2RowB).track_display "spotify:track:x" = some "C - B" := by
  have h := c2_display_last_writer initByYear initGrouped c2RowB
  exact ⟨h.1 (by decide) (by decide), h.2 (by decide)⟩

/-- C3 counterexample: two identifier-less records whose normalized texts
(`lowercase(trim(title)) ++ "||" ++ lowercase(trim(artist))`) coincide are
nevertheless assigned different track keys, because the key is built from
the raw case-sensitive display string. -/
theorem c3_counterexample :
    normalize_key c3RowA.master_metadata_track_name
        c3RowA.master_metadata_album_artist_name =
      normalize_key c3RowB.master_metadata_track_name
        c3RowB.master_metadata_album_artist_name ∧
    (build_track_key_and_name c3RowA).1 ≠ (build_track_key_and_name c3RowB).1 := by
  refine ⟨by decide, by decide⟩

/-- C3 amended: records with the same non-empty identifier share a key
regardless of text; identifier-less records share a key iff their raw
display strings agree (not iff their normalized texts agree). -/
theorem c3_key_invariant :
    (∀ r₁ r₂ : Row, ∀ u : String, u ≠ "" →
      r₁.spotify_track_uri = some u → r₂.spotify_track_uri = some u →
      (build_track_key_and_name r₁).1 = (build_track_key_and_name r₂).1) ∧
    (∀ r₁ r₂ : Row, truthyStr r₁.spotify_track_uri = false →
      truthyStr r₂.spotify_track_uri = false →
      ((build_track_key_and_name r₁).1 = (build_track_key_and_name r₂).1 ↔
        (build_track_key_and_name r₁).2 = (build_track_key_and_name r₂).2)) := by
  constructor
  · intro r₁ r₂ u hu h₁ h₂
    have ht : truthyStr (some u) = true := by
      simp [truthyStr, isEmpty_false_of_ne u hu]
    simp [build_track_key_and_name, h₁, h₂, ht]
  · intro r₁ r₂ h₁ h₂
    simp only [build_track_key_and_name, h₁, h₂, Bool.false_eq_true, if_false]
    constructor
    · exact fun h => string_append_cancel h
    · exact fun h => by rw [h]

/-- C3 witness: the invariant at concrete records — the same URI with
different titles gives equal keys; the display-iff at two concrete
identifier-less records. -/
theorem c3_witness :
    (build_track_key_and_name c2RowA).1 = (build_track_key_and_name c2RowB).1 ∧
    ((build_track_key_and_name c3RowA).1 = (build_track_key_and_name c3RowB).1 ↔
      (build_track_key_and_name c3RowA).2 = (build_track_key_and_name c3RowB).2) := by
  have h := c3_key_invariant
  exact ⟨h.1 c2RowA c2RowB "spotify:track:x" (by decide) rfl rfl,
    h.2 c3RowA c3RowB (by decide) (by decide)⟩

/-- C4: `compute_gini` agrees with the specification's description
(`gini_spec`) on every integer list, and takes the stated values on the
three given distributions. -/
theorem c4_gini (counts : List Int) :
    compute_gini counts = gini_spec counts ∧
    compute_gini [] = 0 ∧ compute_gini [5] = 0 ∧ compute_gini [1, 1, 1, 1] = 0 := by
  refine ⟨?_, by decide, by norm_num [compute_gini, weightedCum],
    by norm_num [compute_gini, weightedCum]⟩
  simp only [compute_gini, gini_spec, List.length_insertionSort]
  by_cases hn : (counts.filter (fun c => 0 < c)).length = 0
  · simp [hn]
  · by_cases ht : (List.insertionSort (· ≤ ·) (counts.filter (fun c => 0 < c))).sum = 0
    · simp [hn, ht]
    · simp [hn, ht]

/-- C5: the consistency metric on the spec's example equals
`(score, yearsActive, totalPlays) = (23, 3, 58)`, and the consistency
ranking is ordered by descending score, then descending years active,
then descending total plays, then ascending display name. -/
theorem c5_consistency (td : String → Option String)
    (l : List (String × Nat × Nat × Nat)) :
    consistencyEntry [("2019", 15), ("2020", 3), ("2021", 40)] = (23, 3, 58) ∧
    (sortConsistency td l).Pairwise (consistencyOrder td) := by
  constructor
  · decide
  · have hs : (sortConsistency td l).Sorted
        (fun a b => consistencyKey td a ≤ consistencyKey td b) := by
      haveI : IsTotal (String × Nat × Nat × Nat)
          (fun a b => consistencyKey td a ≤ consistencyKey td b) :=
        ⟨fun a b => le_total _ _⟩
      haveI : IsTrans (String × Nat × Nat × Nat)
          (fun a b => consistencyKey td a ≤ consistencyKey td b) :=
        ⟨fun a b c h₁ h₂ => le_trans h₁ h₂⟩
      exact List.sorted_insertionSort _ l
    exact hs.imp (fun h => consistencyKey_le_imp td _ _ h)

/-- C6: the platform classifier is a total function satisfying the four
test vectors of the specification. -/
theorem c6_classifier_vectors :
    normalize_platform_to_group "Android OS 6.0.1 API 23)" = "Android 6" ∧
    normalize_platform_to_group "Windows 10 (Unknown Ed)" = "Windows 10" ∧
    normalize_platform_to_group "web_player linux ;firefox 62" = "Web Player Linux" ∧
    normalize_platform_to_group "" = "Unknown" := by
  refine ⟨by decide, by decide, by decide, by decide⟩

/-- C7 counterexample: `history_top_from_folder.py` sorts by descending
`ms_played` only; with two items of equal count the stable sort keeps
first-appearance order, so the item named `"b"` ranks before the
lexicographically smaller `"a"`. -/
theorem c7_counterexample :
    sortSongToMsDesc [("b", 5), ("a", 5)] = [("b", 5), ("a", 5)] ∧
    ("a" : String) < "b" := by
  refine ⟨by decide, ?_⟩
  rw [String.lt_iff_toList_lt]
  decide

/-- C7 amended: every list sorted by the `(-count, name)` key — as used by
the per-year, global, grouped, platform and playlist-counting rankings —
is ordered by descending count with ascending-display-name ties;
`history_top_from_folder.py`'s ms-only sort is the exception. -/
theorem c7_count_name_ranking (td : String → Option String)
    (items : List (String × Nat)) :
    (sortCountName td items).Pairwise (countNameOrder td) := by
  have hs : (sortCountName td items).Sorted
      (fun a b => countNameKey td a ≤ countNameKey td b) := by
    haveI : IsTotal (String × Nat) (fun a b => countNameKey td a ≤ countNameKey td b) :=
      ⟨fun a b => le_total _ _⟩
    haveI : IsTrans (String × Nat) (fun a b => countNameKey td a ≤ countNameKey td b) :=
      ⟨fun a b c h₁ h₂ => le_trans h₁ h₂⟩
    exact List.sorted_insertionSort _ items
  exact hs.imp (fun h => countNameKey_le_imp td _ _ h)

/-- C8: when the record's identifier is non-empty and in the catalog's
identifier set, resolution returns the identifier-based display (with the
URI itself as fallback text) and leaves `display_to_key` untouched —
independently of what `key_to_display` would say about the record's
normalized text. -/
theorem c8_resolver_id_wins (env : CatalogEnv) (d2k : String → Option String)
    (row : Row) (u : String) (h₁ : row.spotify_track_uri = some u) (h₂ : u ≠ "")
    (h₃ : env.uri_set.contains u = true) :
    resolve_display_key env d2k row =
      (some ((env.uri_to_display u).getD u), d2k) := by
  have ht : truthyStr (some u) = true := by
    simp [truthyStr, isEmpty_false_of_ne u h₂]
  have hm : u ∈ env.uri_set := by simpa using h₃
  rw [resolve_display_key]
  simp only [h₁, Option.getD_some]
  rw [if_pos (by simp [ht, hm])]

/-- C8 witness: the precedence theorem at the concrete catalog in which
the text fallback would have produced the different entry `Song B - Y`. -/
theorem c8_witness :
    resolve_display_key c8Env (fun _ => none) c8Row =
      (some "Song A - X", fun _ => none) := by
  have h := c8_resolver_id_wins c8Env (fun _ => none) c8Row "u1" rfl
    (by decide) (by decide)
  simpa [c8Env] using h

/-- C9: a directory holding one well-formed JSON-array file and one
corrupted file (whole-file parse fails, every line blank or unparseable)
yields exactly the records of the well-formed file; and files are
processed in ascending filename order. -/
theorem c9_record_source {α : Type} (n₁ n₂ : String) (rows rows₂ : List α)
    (ls : List (LineOutcome α))
    (h : ∀ l ∈ ls, l = LineOutcome.blank ∨ l = LineOutcome.bad) :
    iter_history_records
        [(n₁, FileContent.arrayOk rows), (n₂, FileContent.noParse ls)] = rows ∧
    (n₁ < n₂ →
      iter_history_records
          [(n₂, FileContent.arrayOk rows₂), (n₁, FileContent.arrayOk rows)] =
        rows ++ rows₂) := by
  have hl : lineRecords ls = [] := by
    rw [lineRecords, List.filterMap_eq_nil_iff]
    intro l hel
    rcases h l hel with rfl | rfl <;> rfl
  constructor
  · by_cases hle : n₁ ≤ n₂
    · simp [iter_history_records, hle, fileRecords, hl]
    · simp [iter_history_records, hle, fileRecords, hl]
  · intro hlt
    have hnle : ¬ n₂ ≤ n₁ := not_le.mpr hlt
    simp [iter_history_records, hnle, fileRecords]

/-- C9 witness: the record-source theorem at a concrete two-file
directory. -/
theorem c9_witness :
    iter_history_records [("a.json", FileContent.arrayOk [1, 2]),
      ("b.json", FileContent.noParse [LineOutcome.bad, LineOutcome.blank])] = [1, 2] ∧
    iter_history_records [("b.json", FileContent.arrayOk [3]),
      ("a.json", FileContent.arrayOk [1, 2])] = [1, 2] ++ [3] := by
  have h := c9_record_source "a.json" "b.json" [1, 2] [3]
    [LineOutcome.bad, LineOutcome.blank] (by decide)
  refine ⟨h.1, h.2 ?_⟩
  rw [String.lt_iff_toList_lt]
  decide

/-- C10: the second `Partner` branch of `normalize_platform_to_group` is
dead code — the function equals its variant with that branch deleted on
every input, because any cleaned string starting with `partner`
(case-insensitively) already returns from the first `Partner` branch. -/
theorem c10_dead_partner_branch (s : String) :
    normalize_platform_to_group s = normalize_platform_to_group_noSecondPartner s := by
  unfold normalize_platform_to_group normalize_platform_to_group_noSecondPartner
  by_cases he : s.isEmpty = true
  · rw [if_pos he, if_pos he]
  · rw [if_neg he, if_neg he]
    exact classifyChain_eq_noSecondPartner _ _
